import Mathlib

/-!
Verification development for the luisa-compute-rs core: the resource/execution
runtime (`src/luisa_compute/src/runtime.rs`) and the reverse-mode automatic
differentiation engine exercised by `src/luisa_compute/tests/autodiff.rs`.

The runtime definitions below are shallow embeddings of the Rust functions in
`runtime.rs`: each backend-facing operation is modelled as a pure function
returning its result together with the list of `Backend` calls it emits, so
that theorems can speak about exactly which backend operations happen and in
which order.

The differentiation engine itself is not part of the provided sources (only
its tests are), so it is modelled from the specification, sections 4.3/4.4:
a tape of nodes in creation order, backward traversal in reverse creation
order with additive adjoint accumulation, branch/φ routing that delivers an
exactly-zero adjoint to untaken cases, and detach nodes with no backward edge.
-/

namespace LuisaRuntime

/-- Opaque backend-level command descriptor (`api::Command`). -/
structure ApiCommand where
  uid : Nat
deriving DecidableEq

/-- Opaque backend stream handle (`api::Stream`). -/
structure ApiStream where
  uid : Nat
deriving DecidableEq

/-- Opaque backend texture handle. -/
structure ApiTexture where
  uid : Nat
deriving DecidableEq

/-- Error taxonomy of the spec, section 7.  The runtime source only threads
`backend::Result` errors through; the constructors name the spec's taxonomy. -/
inductive BackendErr where
  | allocationFailure
  | dispatchFailure
  | unsupportedFormat
deriving DecidableEq

/-- One call made by the runtime to the `Backend` capability interface
(spec section 6). -/
inductive BackendCall where
  | dispatch (stream : ApiStream) (commands : List ApiCommand)
  | destroyStream (stream : ApiStream)
  | synchronizeStream (stream : ApiStream)
  | createTexture (format dim w h d mips : Nat)
deriving DecidableEq

/-- The `Backend` trait, modelled by its response functions: what result each
backend operation returns when called.  The calls actually made are tracked
separately as `List BackendCall` values produced by the runtime operations. -/
structure Backend where
  dispatchResult : ApiStream → List ApiCommand → Except BackendErr Unit
  syncResult : ApiStream → Except BackendErr Unit
  createTextureResult : Nat → Nat → Nat → Nat → Nat → Nat → Except BackendErr ApiTexture

/-- An opaque resource reference kept alive by a command's resource tracker
(`Box<dyn Any>` in the source). -/
structure Resource where
  uid : Nat
deriving DecidableEq

/-- `Command<'a>`: a backend command descriptor plus the resource tracker
holding the resources it touches (`runtime.rs`, `pub struct Command`). -/
structure Command where
  inner : ApiCommand
  resource_tracker : List Resource
deriving DecidableEq

/-- `DeviceHandle`: owns the backend connection and the default stream handle
(`runtime.rs`, `pub(crate) struct DeviceHandle`). -/
structure DeviceHandle where
  default_stream : ApiStream
deriving DecidableEq

/-- `StreamHandle`: either the device's default stream or an explicitly
created stream (`runtime.rs`, `pub(crate) enum StreamHandle`).  Both variants
hold the device to keep it alive. -/
inductive StreamHandle where
  | Default (device : DeviceHandle) (stream : ApiStream)
  | NonDefault (device : DeviceHandle) (handle : ApiStream)
deriving DecidableEq

/-- `StreamHandle::handle`: the raw backend stream of either variant. -/
def StreamHandle.handle : StreamHandle → ApiStream
  | .Default _ s => s
  | .NonDefault _ h => h

/-- `Device::default_stream`: wraps the device's default stream without any
backend call (`runtime.rs` lines 150-158). -/
def DeviceHandle.defaultStreamHandle (d : DeviceHandle) : StreamHandle :=
  StreamHandle.Default d d.default_stream

/-- `impl Drop for StreamHandle` (`runtime.rs` lines 195-204): the backend
calls emitted when the last reference to the handle drops.  A `Default`
stream handle emits nothing; a `NonDefault` one destroys its stream. -/
def StreamHandle.dropCalls : StreamHandle → List BackendCall
  | .Default _ _ => []
  | .NonDefault _ h => [BackendCall.destroyStream h]

/-- `impl Drop for DeviceHandle` (`runtime.rs` lines 77-81): destroying the
device releases the default stream's backend handle. -/
def DeviceHandle.dropCalls (d : DeviceHandle) : List BackendCall :=
  [BackendCall.destroyStream d.default_stream]

/-- `Arc` drop semantics: dropping one reference while `others` references
remain emits no backend call; the inner destructor (`finalizer`) runs only on
the drop of the last reference. -/
def arcDrop (others : Nat) (finalizer : List BackendCall) : List BackendCall :=
  if others = 0 then finalizer else []

/-- `CommandBuffer<'a>` (`runtime.rs` lines 220-224): a builder bound to one
stream, owning the recorded commands (each with its resource tracker). -/
structure CommandBuffer where
  stream : StreamHandle
  commands : List Command
deriving DecidableEq

/-- `Stream::command_buffer` (`runtime.rs` lines 212-218): a fresh builder
bound to the stream, with no recorded commands. -/
def Stream.commandBuffer (s : StreamHandle) : CommandBuffer :=
  { stream := s, commands := [] }

/-- `CommandBuffer::push` (`runtime.rs` lines 229-231). -/
def CommandBuffer.push (cb : CommandBuffer) (c : Command) : CommandBuffer :=
  { cb with commands := cb.commands ++ [c] }

/-- `CommandBuffer::extend` (`runtime.rs` lines 226-228). -/
def CommandBuffer.extend (cb : CommandBuffer) (cs : List Command) : CommandBuffer :=
  { cb with commands := cb.commands ++ cs }

/-- `CommandBuffer::commit` (`runtime.rs` lines 232-238): maps the recorded
commands to their backend descriptors and makes the single
`Backend::dispatch` call on the bound stream. -/
def CommandBuffer.commit (b : Backend) (cb : CommandBuffer) :
    Except BackendErr Unit × List BackendCall :=
  let commands := cb.commands.map Command.inner
  (b.dispatchResult cb.stream.handle commands,
   [BackendCall.dispatch cb.stream.handle commands])

/-- `Stream::synchronize` (`runtime.rs` lines 209-211): a single
`synchronize_stream` backend call, nothing else. -/
def Stream.synchronize (b : Backend) (s : StreamHandle) :
    Except BackendErr Unit × List BackendCall :=
  (b.syncResult s.handle, [BackendCall.synchronizeStream s.handle])

/-- `submit_default_stream_and_sync` (`runtime.rs` lines 240-251): default
stream, fresh command buffer, extend, commit (with `?` early return on
error), then synchronize the same stream. -/
def submitDefaultStreamAndSync (b : Backend) (dev : DeviceHandle)
    (cmds : List Command) : Except BackendErr Unit × List BackendCall :=
  let ds := dev.defaultStreamHandle
  let cb := Stream.commandBuffer ds
  let cb := cb.extend cmds
  match cb.commit b with
  | (Except.error e, calls) => (Except.error e, calls)
  | (Except.ok _, calls) =>
    let r := Stream.synchronize b ds
    (r.fst, calls ++ r.snd)

/-- A recording operation on a command buffer: `push` or `extend`. -/
inductive RecOp where
  | pushOp (c : Command)
  | extendOp (cs : List Command)

/-- Apply a sequence of recording operations to a builder. -/
def recordOps (cb : CommandBuffer) : List RecOp → CommandBuffer
  | [] => cb
  | RecOp.pushOp c :: rest => recordOps (cb.push c) rest
  | RecOp.extendOp cs :: rest => recordOps (cb.extend cs) rest

/-- The commands a sequence of recording operations contributes, in order. -/
def flattenRecOps : List RecOp → List Command
  | [] => []
  | RecOp.pushOp c :: rest => c :: flattenRecOps rest
  | RecOp.extendOp cs :: rest => cs ++ flattenRecOps rest

/-- A whole life of one `CommandBuffer` under Rust move semantics: since
`commit` takes `self` by value, a builder's use is a sequence of recording
operations followed by at most one commit (after which the builder is gone).
`committed` says whether the session ends in a commit; the value is the list
of backend calls the builder makes over its whole life (recording makes
none). -/
def sessionCalls (b : Backend) (s : StreamHandle) (ops : List RecOp)
    (committed : Bool) : List BackendCall :=
  if committed then ((recordOps (Stream.commandBuffer s) ops).commit b).snd
  else []

/-- Count the `dispatch` calls in a backend call trace. -/
def dispatchCount (calls : List BackendCall) : Nat :=
  calls.countP fun c =>
    match c with
    | BackendCall.dispatch _ _ => true
    | _ => false

/-- Count the `destroy_stream` calls for a given stream in a trace. -/
def destroyCount (s : ApiStream) (calls : List BackendCall) : Nat :=
  calls.countP fun c =>
    match c with
    | BackendCall.destroyStream t => decide (t = s)
    | _ => false

/-- An element type's supported pixel formats (`T: Texel`,
`T::pixel_formats()`); pixel formats are opaque. -/
structure Texel where
  pixel_formats : List Nat
deriving DecidableEq

/-- Owning texture handle (`TextureHandle` in the source). -/
structure TextureHandle where
  handle : ApiTexture
  format : Nat
deriving DecidableEq

/-- Result of a runtime operation that can also abort the process:
`assert!` failure is `panicked`, distinct from a returned error. -/
inductive Outcome (α : Type) where
  | ok (a : α)
  | err (e : BackendErr)
  | panicked
deriving DecidableEq

/-- `Device::create_tex2d` (`runtime.rs` lines 105-126): `assert!` that the
format is among `T::pixel_formats()` (panicking otherwise, before any backend
call), then ask the backend for a 2D texture (depth 1). -/
def Device.createTex2d (b : Backend) (texel : Texel) (format w h mips : Nat) :
    Outcome TextureHandle × List BackendCall :=
  if texel.pixel_formats.contains format then
    match b.createTextureResult format 2 w h 1 mips with
    | Except.ok t => (Outcome.ok ⟨t, format⟩, [BackendCall.createTexture format 2 w h 1 mips])
    | Except.error e => (Outcome.err e, [BackendCall.createTexture format 2 w h 1 mips])
  else (Outcome.panicked, [])

/-- `Device::create_tex3d` (`runtime.rs` lines 127-149): same validation,
3D texture with explicit depth. -/
def Device.createTex3d (b : Backend) (texel : Texel) (format w h d mips : Nat) :
    Outcome TextureHandle × List BackendCall :=
  if texel.pixel_formats.contains format then
    match b.createTextureResult format 3 w h d mips with
    | Except.ok t => (Outcome.ok ⟨t, format⟩, [BackendCall.createTexture format 3 w h d mips])
    | Except.error e => (Outcome.err e, [BackendCall.createTexture format 3 w h d mips])
  else (Outcome.panicked, [])

/-- A backend whose responses always succeed, for concrete evaluations. -/
def okBackend : Backend where
  dispatchResult := fun _ _ => Except.ok ()
  syncResult := fun _ => Except.ok ()
  createTextureResult := fun _ _ _ _ _ _ => Except.ok ⟨0⟩

theorem recordOps_commands (ops : List RecOp) :
    ∀ cb : CommandBuffer, (recordOps cb ops).commands = cb.commands ++ flattenRecOps ops := by
  induction ops with
  | nil => intro cb; simp [recordOps, flattenRecOps]
  | cons op rest ih =>
    intro cb
    cases op with
    | pushOp c => simp [recordOps, flattenRecOps, ih, CommandBuffer.push]
    | extendOp cs => simp [recordOps, flattenRecOps, ih, CommandBuffer.extend]

theorem recordOps_stream (ops : List RecOp) :
    ∀ cb : CommandBuffer, (recordOps cb ops).stream = cb.stream := by
  induction ops with
  | nil => intro cb; simp [recordOps]
  | cons op rest ih =>
    intro cb
    cases op with
    | pushOp c => simp [recordOps, ih, CommandBuffer.push]
    | extendOp cs => simp [recordOps, ih, CommandBuffer.extend]

/-- Claim C3: for every `CommandBuffer`, `commit` makes exactly one
`Backend::dispatch` call, on the buffer's bound stream, passing exactly the
recorded commands' backend descriptors in recorded order (same length,
element `i` being the descriptor of recorded command `i`); the result
returned to the caller is that single dispatch's result, so the whole
sequence is submitted in one dispatch or (on error) none of it is. -/
theorem commit_single_dispatch (b : Backend) (cb : CommandBuffer) :
    (cb.commit b).snd =
      [BackendCall.dispatch cb.stream.handle (cb.commands.map Command.inner)] ∧
    dispatchCount (cb.commit b).snd = 1 ∧
    (cb.commands.map Command.inner).length = cb.commands.length ∧
    (cb.commit b).fst = b.dispatchResult cb.stream.handle (cb.commands.map Command.inner) := by
  simp [CommandBuffer.commit, dispatchCount]

/-- Counterexample to claim C4 as stated: with an element type supporting
only pixel format `0`, requesting format `1` makes `create_tex2d` abort via
`assert!` (modelled as `Outcome.panicked`, with no backend call) — it does
not return an `UnsupportedFormat` error result to the caller. -/
theorem createTex2d_assert_counterexample :
    (Device.createTex2d okBackend ⟨[0]⟩ 1 4 4 1).fst = Outcome.panicked ∧
    (Device.createTex2d okBackend ⟨[0]⟩ 1 4 4 1).snd = [] ∧
    (Outcome.panicked : Outcome TextureHandle) ≠ Outcome.err BackendErr.unsupportedFormat := by
  refine ⟨?_, ?_, by simp⟩ <;> simp [Device.createTex2d]

/-- Claim C4 (amended): `create_tex2d` and `create_tex3d` validate that the
requested pixel format is supported for the element type; when it is not,
they abort via an assertion (a panic, not a returned error result) without
asking the `Backend` to allocate; when it is supported, they make exactly
one backend `create_texture` call. -/
theorem createTex_validation (b : Backend) (texel : Texel) (format w h d mips : Nat) :
    (texel.pixel_formats.contains format = false →
      Device.createTex2d b texel format w h mips = (Outcome.panicked, []) ∧
      Device.createTex3d b texel format w h d mips = (Outcome.panicked, [])) ∧
    (texel.pixel_formats.contains format = true →
      (Device.createTex2d b texel format w h mips).snd =
        [BackendCall.createTexture format 2 w h 1 mips] ∧
      (Device.createTex3d b texel format w h d mips).snd =
        [BackendCall.createTexture format 3 w h d mips]) := by
  constructor
  · intro hf
    have hm : format ∉ texel.pixel_formats := by simpa using hf
    simp [Device.createTex2d, Device.createTex3d, hm]
  · intro hf
    have hm : format ∈ texel.pixel_formats := by simpa using hf
    constructor
    · cases hr : b.createTextureResult format 2 w h 1 mips <;>
        simp [Device.createTex2d, hm, hr]
    · cases hr : b.createTextureResult format 3 w h d mips <;>
        simp [Device.createTex3d, hm, hr]

/-- Witness for `createTex_validation`: an element type supporting only
format `0`, once asked for the unsupported format `1` and once for the
supported format `0`. -/
theorem createTex_validation_witness :
    (Device.createTex2d okBackend ⟨[0]⟩ 1 4 4 1 = (Outcome.panicked, []) ∧
      Device.createTex3d okBackend ⟨[0]⟩ 1 4 4 2 1 = (Outcome.panicked, [])) ∧
    ((Device.createTex2d okBackend ⟨[0]⟩ 0 4 4 1).snd =
        [BackendCall.createTexture 0 2 4 4 1 1] ∧
      (Device.createTex3d okBackend ⟨[0]⟩ 0 4 4 2 1).snd =
        [BackendCall.createTexture 0 3 4 4 2 1]) :=
  ⟨(createTex_validation okBackend ⟨[0]⟩ 1 4 4 2 1).1 (by simp),
   (createTex_validation okBackend ⟨[0]⟩ 0 4 4 2 1).2 (by simp)⟩

/-- Claim C5: dropping the last reference to a non-default stream emits
exactly one `destroy_stream` call, for its own handle; dropping references
to the default stream emits no `destroy_stream` while the device is alive
(non-final `Arc` drops emit nothing at all); and the default stream's
backend handle is released exactly once, by the drop of the device's own
last reference, over the whole lifetime. -/
theorem stream_lifetime (dev : DeviceHandle) (h s : ApiStream) (k : Nat)
    (fin : List BackendCall) (hs : List StreamHandle)
    (hdef : ∀ x ∈ hs, ∃ d t, x = StreamHandle.Default d t) :
    (StreamHandle.NonDefault dev h).dropCalls = [BackendCall.destroyStream h] ∧
    destroyCount h (StreamHandle.NonDefault dev h).dropCalls = 1 ∧
    arcDrop (k + 1) fin = [] ∧
    (StreamHandle.Default dev s).dropCalls = [] ∧
    dev.dropCalls = [BackendCall.destroyStream dev.default_stream] ∧
    destroyCount dev.default_stream
      ((hs.map StreamHandle.dropCalls).flatten ++ dev.dropCalls) = 1 := by
  refine ⟨rfl, by simp [destroyCount, StreamHandle.dropCalls],
    by simp [arcDrop], rfl, rfl, ?_⟩
  have hjoin : (hs.map StreamHandle.dropCalls).flatten = [] := by
    induction hs with
    | nil => simp
    | cons x rest ih =>
      obtain ⟨d, t, hx⟩ := hdef x (by simp)
      have hrest : (rest.map StreamHandle.dropCalls).flatten = [] :=
        ih (fun z hz => hdef z (by simp [hz]))
      simp [hx, StreamHandle.dropCalls, hrest]
  simp [hjoin, DeviceHandle.dropCalls, destroyCount]

/-- Witness for `stream_lifetime` at a concrete device, streams, and one
dropped default-stream handle. -/
theorem stream_lifetime_witness :
    (StreamHandle.NonDefault ⟨⟨0⟩⟩ ⟨1⟩).dropCalls = [BackendCall.destroyStream ⟨1⟩] ∧
    destroyCount ⟨1⟩ (StreamHandle.NonDefault ⟨⟨0⟩⟩ ⟨1⟩).dropCalls = 1 ∧
    arcDrop (2 + 1) [BackendCall.destroyStream ⟨1⟩] = [] ∧
    (StreamHandle.Default ⟨⟨0⟩⟩ ⟨0⟩).dropCalls = [] ∧
    DeviceHandle.dropCalls ⟨⟨0⟩⟩ = [BackendCall.destroyStream ⟨0⟩] ∧
    destroyCount ⟨0⟩
      (([StreamHandle.Default ⟨⟨0⟩⟩ ⟨0⟩].map StreamHandle.dropCalls).flatten ++
        DeviceHandle.dropCalls ⟨⟨0⟩⟩) = 1 :=
  stream_lifetime ⟨⟨0⟩⟩ ⟨1⟩ ⟨0⟩ 2 [BackendCall.destroyStream ⟨1⟩]
    [StreamHandle.Default ⟨⟨0⟩⟩ ⟨0⟩] (by simp)

/-- Claim C8: every `Command` carries its resource tracker, and the
`CommandBuffer` retains each recorded command — tracker and all, in
recording order, none dropped — from recording until `commit` consumes the
buffer; `commit` hands the backend the descriptors of exactly that retained
list, positionally aligned with the retained trackers. -/
theorem resource_tracker_retention (b : Backend) (s : StreamHandle) (ops : List RecOp) :
    (recordOps (Stream.commandBuffer s) ops).commands = flattenRecOps ops ∧
    (recordOps (Stream.commandBuffer s) ops).commands.map Command.resource_tracker =
      (flattenRecOps ops).map Command.resource_tracker ∧
    ((recordOps (Stream.commandBuffer s) ops).commit b).snd =
      [BackendCall.dispatch s.handle ((flattenRecOps ops).map Command.inner)] ∧
    ((flattenRecOps ops).map Command.inner).length =
      ((flattenRecOps ops).map Command.resource_tracker).length := by
  have hc : (recordOps (Stream.commandBuffer s) ops).commands = flattenRecOps ops := by
    simp [recordOps_commands, Stream.commandBuffer]
  refine ⟨hc, by rw [hc], ?_, by simp⟩
  simp [CommandBuffer.commit, recordOps_commands, recordOps_stream, Stream.commandBuffer]

/-- Claim C9: `Stream::synchronize` emits a single `synchronize_stream`
backend call and never a dispatch (it cannot implicitly commit or flush an
uncommitted buffer); `submit_default_stream_and_sync` records the commands
into a fresh buffer on the default stream, commits, and synchronizes that
same stream only if the commit succeeded — a commit error is returned and
no `synchronize_stream` call is made. -/
theorem sync_no_implicit_commit (b : Backend) (s : StreamHandle)
    (dev : DeviceHandle) (cmds : List Command) :
    (Stream.synchronize b s).snd = [BackendCall.synchronizeStream s.handle] ∧
    dispatchCount (Stream.synchronize b s).snd = 0 ∧
    submitDefaultStreamAndSync b dev cmds =
      (match b.dispatchResult dev.default_stream (cmds.map Command.inner) with
       | Except.error e =>
         (Except.error e,
          [BackendCall.dispatch dev.default_stream (cmds.map Command.inner)])
       | Except.ok _ =>
         (b.syncResult dev.default_stream,
          [BackendCall.dispatch dev.default_stream (cmds.map Command.inner),
           BackendCall.synchronizeStream dev.default_stream])) := by
  refine ⟨rfl, by simp [dispatchCount, Stream.synchronize], ?_⟩
  cases hr : b.dispatchResult dev.default_stream (cmds.map Command.inner) <;>
    simp [submitDefaultStreamAndSync, CommandBuffer.commit, CommandBuffer.extend,
      Stream.commandBuffer, Stream.synchronize, DeviceHandle.defaultStreamHandle,
      StreamHandle.handle, hr]

/-- Claim C10: `commit` consumes the builder by value, so a `CommandBuffer`
session is a sequence of recording operations followed by at most one
commit; over any such session the recorded commands reach
`Backend::dispatch` at most once — exactly once (all of them, in order) if
the session ends in a commit, and never otherwise. -/
theorem commit_at_most_once (b : Backend) (s : StreamHandle) (ops : List RecOp)
    (committed : Bool) :
    dispatchCount (sessionCalls b s ops committed) ≤ 1 ∧
    sessionCalls b s ops true =
      [BackendCall.dispatch s.handle ((flattenRecOps ops).map Command.inner)] ∧
    sessionCalls b s ops false = [] := by
  have htrue : sessionCalls b s ops true =
      [BackendCall.dispatch s.handle ((flattenRecOps ops).map Command.inner)] := by
    simp [sessionCalls, CommandBuffer.commit, recordOps_commands, recordOps_stream,
      Stream.commandBuffer]
  refine ⟨?_, htrue, rfl⟩
  cases committed
  · simp [sessionCalls, dispatchCount]
  · simp [htrue, dispatchCount]

end LuisaRuntime

namespace LuisaAD

/-!
Modelled from the spec: the reverse-mode differentiation engine (spec
sections 4.3 "Differentiation Trace" and 4.4 "Branch-Aware Gradient
Routing").  The engine's source is not among the provided files — only its
tests (`tests/autodiff.rs`) are — so the definitions below follow the spec's
words: a tape of nodes in creation order, each node recording its operation
and operands; `backward` seeds the output's adjoint with one and walks nodes
in reverse creation order, accumulating `operand.adjoint += node.adjoint *
local_derivative`; branch/φ nodes route the adjoint to the taken case and
exactly zero to untaken cases, "independent of what numeric value that
case's primal computation produced"; detach nodes have no backward edge.
Scalars are exact rationals; `nan` models IEEE NaN poisoning (any arithmetic
on `nan` is `nan`), so "never NaN" claims are real statements about routing.
-/

/-- A per-lane runtime value: a (finite, exact) scalar, a boolean (branch
predicates), or NaN. -/
inductive V where
  | num (q : ℚ)
  | boolV (b : Bool)
  | nan
deriving DecidableEq

/-- Addition; NaN and non-scalar operands poison the result. -/
def V.add : V → V → V
  | V.num a, V.num b => V.num (a + b)
  | _, _ => V.nan

/-- Subtraction with NaN poisoning. -/
def V.sub : V → V → V
  | V.num a, V.num b => V.num (a - b)
  | _, _ => V.nan

/-- Multiplication with NaN poisoning. -/
def V.mul : V → V → V
  | V.num a, V.num b => V.num (a * b)
  | _, _ => V.nan

/-- Reciprocal; `1/0` and non-scalars give NaN. -/
def V.inv : V → V
  | V.num a => if a = 0 then V.nan else V.num a⁻¹
  | _ => V.nan

/-- Square root; negative domain gives NaN (here `sqrt(x-y)` with `x<y`
produces NaN, exactly the situation of the NaN-safety claims). -/
def V.sqrtV : V → V
  | V.num a => if a < 0 then V.nan else V.num (Rat.sqrt a)
  | _ => V.nan

/-- Greater-than comparison, producing a branch predicate. -/
def V.cmpgtV : V → V → V
  | V.num a, V.num b => V.boolV (decide (b < a))
  | _, _ => V.nan

/-- Modelled from the spec: adjoint routing multiply.  The router delivers
"exactly zero to cases whose predicate is false for that lane — independent
of what numeric value that case's primal computation produced"; an adjoint
that is exactly zero (the mask-multiplied adjoint of an untaken case)
therefore propagates as exact zero without evaluating the local derivative,
never as `0 * NaN = NaN`. -/
def routeMul : V → V → V
  | V.num a, d => if a = 0 then V.num 0 else (V.num a).mul d
  | a, d => a.mul d

/-- Tape node operations.  Operands are indices of earlier nodes (spec:
"node creation order is a valid topological order").  `phi` is the merged
output of a branch construct (`select` or `if`/`else`); `switchPhi` is the
merged output of a `switch` with its list of `(case tag, case value)`
pairs. -/
inductive Op where
  | inputV (v : V)
  | constV (v : V)
  | addOp (a b : Nat)
  | subOp (a b : Nat)
  | mulOp (a b : Nat)
  | sqrtOp (a : Nat)
  | cmpgt (a b : Nat)
  | detach (a : Nat)
  | phi (c a b : Nat)
  | switchPhi (k : Nat) (cases : List (Int × Nat))
deriving DecidableEq

/-- The tape: nodes in creation order. -/
abbrev Trace := List Op

/-- Forward evaluation of one node given the values of earlier nodes
(node values are read through a total valuation `Nat → V`). -/
def evalOp (vals : Nat → V) : Op → V
  | Op.inputV v => v
  | Op.constV v => v
  | Op.addOp a b => (vals a).add (vals b)
  | Op.subOp a b => (vals a).sub (vals b)
  | Op.mulOp a b => (vals a).mul (vals b)
  | Op.sqrtOp a => (vals a).sqrtV
  | Op.cmpgt a b => (vals a).cmpgtV (vals b)
  | Op.detach a => vals a
  | Op.phi c a b =>
    match vals c with
    | V.boolV true => vals a
    | V.boolV false => vals b
    | _ => V.nan
  | Op.switchPhi k cases =>
    match vals k with
    | V.num q =>
      match cases.find? (fun ca => decide ((ca.fst : ℚ) = q)) with
      | some ca => vals ca.snd
      | none => V.nan
    | _ => V.nan

/-- Forward pass helper: evaluate the nodes of `ops` in creation order,
assigning node `n` the value of the first listed operation, and so on. -/
def forwardAux : List Op → (Nat → V) → Nat → (Nat → V)
  | [], vals, _ => vals
  | op :: rest, vals, n =>
    forwardAux rest (fun j => if j = n then evalOp vals op else vals j) (n + 1)

/-- Forward pass: the value of every node of the tape, by node index. -/
def forwardF (tr : Trace) : Nat → V :=
  forwardAux tr (fun _ => V.nan) 0

/-- Accumulate a contribution into an adjoint accumulator (spec:
"accumulation, not overwrite"). -/
def addAt (adj : Nat → V) (i : Nat) (v : V) : Nat → V :=
  fun j => if j = i then (adj i).add v else adj j

/-- Backward rule of one node: distribute its adjoint to its operands.
Inputs, constants, comparisons and detach nodes have no backward edge; a
`phi` routes the adjoint to the taken case and exactly zero to the untaken
one; a `switchPhi` routes the adjoint to the case whose tag equals the key
and exactly zero to every other case. -/
def stepBack (vals : Nat → V) (adj : Nat → V) (i : Nat) : Op → (Nat → V)
  | Op.inputV _ => adj
  | Op.constV _ => adj
  | Op.cmpgt _ _ => adj
  | Op.detach _ => adj
  | Op.addOp a b =>
    addAt (addAt adj a (routeMul (adj i) (V.num 1))) b (routeMul (adj i) (V.num 1))
  | Op.subOp a b =>
    addAt (addAt adj a (routeMul (adj i) (V.num 1))) b (routeMul (adj i) (V.num (-1)))
  | Op.mulOp a b =>
    addAt (addAt adj a (routeMul (adj i) (vals b))) b (routeMul (adj i) (vals a))
  | Op.sqrtOp a =>
    addAt adj a (routeMul (adj i) ((V.num 2).mul (vals i)).inv)
  | Op.phi c a b =>
    match vals c with
    | V.boolV true => addAt (addAt adj a (adj i)) b (V.num 0)
    | V.boolV false => addAt (addAt adj b (adj i)) a (V.num 0)
    | _ => adj
  | Op.switchPhi k cases =>
    match vals k with
    | V.num q =>
      cases.foldl
        (fun acc ca =>
          if (ca.fst : ℚ) = q then addAt acc ca.snd (adj i) else addAt acc ca.snd (V.num 0))
        adj
    | _ => adj

/-- Pair every node with its creation index, starting at `n`. -/
def enumFrom (n : Nat) : List Op → List (Nat × Op)
  | [] => []
  | op :: rest => (n, op) :: enumFrom (n + 1) rest

/-- Apply the backward rules of the given (index, node) pairs in list
order. -/
def backList (vals : Nat → V) : List (Nat × Op) → (Nat → V) → (Nat → V)
  | [], adj => adj
  | iop :: rest, adj => backList vals rest (stepBack vals adj iop.fst iop.snd)

/-- `backward(output)`: seed the output's adjoint with one, every other
adjoint accumulator with zero, and walk the nodes in reverse creation order
(spec: "walks nodes in reverse creation order").  Returns the final adjoint
of every node. -/
def backwardFrom (tr : Trace) (out : Nat) : Nat → V :=
  backList (forwardF tr) (enumFrom 0 tr).reverse
    (fun j => if j = out then V.num 1 else V.num 0)

/-- `gradient(v)`: the accumulated adjoint of a leaf previously marked with
`requires_grad`; other nodes are not gradient-observable. -/
def gradientOf (marked : List Nat) (adj : Nat → V) (i : Nat) : Option V :=
  if i ∈ marked then some (adj i) else none

theorem routeMul_num (a b : ℚ) : routeMul (V.num a) (V.num b) = V.num (a * b) := by
  by_cases h : a = 0 <;> simp [routeMul, V.mul, h]

theorem routeMul_zero (d : V) : routeMul (V.num 0) d = V.num 0 := by
  simp [routeMul]

theorem vadd_num (a b : ℚ) : V.add (V.num a) (V.num b) = V.num (a + b) := rfl

/-- The tape traced by the kernel of `autodiff_select`
(`tests/autodiff.rs` lines 611-653): `z = select(x > y, x * 4.0, y * 0.5)`
with `requires_grad(x)` and `requires_grad(y)`.  Node indices: 0 = `x`,
1 = `y`, 2 = `x > y`, 3 = `4.0`, 4 = `x * 4.0`, 5 = `0.5`, 6 = `y * 0.5`,
7 = the select's merged output `z`. -/
def selectTrace (x y : ℚ) : Trace :=
  [Op.inputV (V.num x), Op.inputV (V.num y), Op.cmpgt 0 1,
   Op.constV (V.num 4), Op.mulOp 0 3,
   Op.constV (V.num (1 / 2)), Op.mulOp 1 5,
   Op.phi 2 4 6]

/-- The tape traced by the kernel of `autodiff_select_nan`
(`tests/autodiff.rs` lines 705-745): `z = select(x > y, sqrt(x - y),
y * 0.5)`.  Node indices: 0 = `x`, 1 = `y`, 2 = `x > y`, 3 = `x - y`,
4 = `sqrt(x - y)` (NaN whenever `x < y`), 5 = `0.5`, 6 = `y * 0.5`,
7 = the select's merged output `z`. -/
def selectNanTrace (x y : ℚ) : Trace :=
  [Op.inputV (V.num x), Op.inputV (V.num y), Op.cmpgt 0 1,
   Op.subOp 0 1, Op.sqrtOp 3,
   Op.constV (V.num (1 / 2)), Op.mulOp 1 5,
   Op.phi 2 4 6]

/-- The tape traced by the kernel of `autodiff_if_nan`
(`tests/autodiff.rs` lines 746-796): the same computation written with the
`if_!`/`else` construct.  Modelled from the spec: an `if`/`else` branch
construct records its condition and merges its two case values through a φ
node whose backward rule routes by the condition (spec section 4.4), so it
lowers onto the tape exactly as the select does. -/
def ifNanTrace (x y : ℚ) : Trace :=
  [Op.inputV (V.num x), Op.inputV (V.num y), Op.cmpgt 0 1,
   Op.subOp 0 1, Op.sqrtOp 3,
   Op.constV (V.num (1 / 2)), Op.mulOp 1 5,
   Op.phi 2 4 6]

/-- The tape traced by the kernel of `autodiff_detach`
(`tests/autodiff.rs` lines 655-704): `k = detach(x * y)`,
`z = (x + y) * k`.  Node indices: 0 = `x`, 1 = `y`, 2 = `x * y`,
3 = `k = detach(x * y)`, 4 = `x + y`, 5 = `z`. -/
def detachTrace (x y : ℚ) : Trace :=
  [Op.inputV (V.num x), Op.inputV (V.num y), Op.mulOp 0 1,
   Op.detach 2, Op.addOp 0 1, Op.mulOp 4 3]

/-- The tape traced by the kernel of `autodiff_switch`
(`tests/autodiff.rs` lines 1026-1083): a 3-way switch keyed by `t`,
`z = switch(t) { case 0 => x * 4.0, case 1 => x * 2.0, case 2 => y * 0.5 }`.
Node indices: 0 = `x`, 1 = `y`, 2 = `t`, 3 = `4.0`, 4 = `x * 4.0`,
5 = `2.0`, 6 = `x * 2.0`, 7 = `0.5`, 8 = `y * 0.5`, 9 = the switch's
merged output `z`. -/
def switchTrace (x y : ℚ) (t : ℤ) : Trace :=
  [Op.inputV (V.num x), Op.inputV (V.num y), Op.inputV (V.num (t : ℚ)),
   Op.constV (V.num 4), Op.mulOp 0 3,
   Op.constV (V.num 2), Op.mulOp 0 5,
   Op.constV (V.num (1 / 2)), Op.mulOp 1 7,
   Op.switchPhi 2 [(0, 4), (1, 6), (2, 8)]]

/-- The gradients `(gradient(x), gradient(y))` computed by the switch kernel
after `backward(z)`. -/
def switchGrads (x y : ℚ) (t : ℤ) : Option V × Option V :=
  let adj := backwardFrom (switchTrace x y t) 9
  (gradientOf [0, 1] adj 0, gradientOf [0, 1] adj 1)

/-- The callable of `autodiff_callable` (`tests/autodiff.rs` lines
1085-1151): a subroutine taking the two values and the key, opening its own
independent differentiation scope (spec section 4.4, "Callable boundary"),
running the same 3-way switch and backward pass, and writing the two
gradients into its mutable parameters before returning.  State passing
models the parameter writes: the returned pair is the final contents of the
two mutable parameters. -/
def switchCallable (vx vy : V) (t : ℤ) : V × V :=
  match vx, vy with
  | V.num x, V.num y =>
    let adj := backwardFrom (switchTrace x y t) 9
    ((gradientOf [0, 1] adj 0).getD V.nan, (gradientOf [0, 1] adj 1).getD V.nan)
  | _, _ => (V.nan, V.nan)

/-- The kernel of `autodiff_callable`: copies the lane's inputs into mutable
locals, calls the subroutine, and reads the gradients it wrote back. -/
def kernelViaCallable (x y : ℚ) (t : ℤ) : V × V :=
  switchCallable (V.num x) (V.num y) t

/-- Claim C1: for every lane whose branch predicate is false for a case, the
gradient router delivers exactly zero adjoint to that case's inputs
regardless of the value the untaken case's primal computation produced: for
`z = select(x > y, sqrt(x - y), y * 0.5)` with `x < y`, `gradient(x) = 0`
and `gradient(y) = 1/2` exactly (finite scalars, never NaN), even though
`sqrt(x - y)` is evaluated on a negative domain; the same holds when the
branch is written as an `if`/`else` construct. -/
theorem nan_safe_masking (x y : ℚ) (h : x < y) :
    gradientOf [0, 1] (backwardFrom (selectNanTrace x y) 7) 0 = some (V.num 0) ∧
    gradientOf [0, 1] (backwardFrom (selectNanTrace x y) 7) 1 = some (V.num (1 / 2)) ∧
    gradientOf [0, 1] (backwardFrom (ifNanTrace x y) 7) 0 = some (V.num 0) ∧
    gradientOf [0, 1] (backwardFrom (ifNanTrace x y) 7) 1 = some (V.num (1 / 2)) := by
  have h' : ¬ (y < x) := not_lt.mpr (le_of_lt h)
  norm_num [gradientOf, backwardFrom, selectNanTrace, ifNanTrace, forwardF,
    forwardAux, evalOp, enumFrom, backList, stepBack, addAt, routeMul_num,
    routeMul_zero, vadd_num, V.cmpgtV, h']

/-- Witness for `nan_safe_masking` at the concrete lane `x = 0`, `y = 1`. -/
theorem nan_safe_masking_witness :
    gradientOf [0, 1] (backwardFrom (selectNanTrace 0 1) 7) 0 = some (V.num 0) ∧
    gradientOf [0, 1] (backwardFrom (selectNanTrace 0 1) 7) 1 = some (V.num (1 / 2)) ∧
    gradientOf [0, 1] (backwardFrom (ifNanTrace 0 1) 7) 0 = some (V.num 0) ∧
    gradientOf [0, 1] (backwardFrom (ifNanTrace 0 1) 7) 1 = some (V.num (1 / 2)) :=
  nan_safe_masking 0 1 (by norm_num)

/-- Claim C2: for `z = select(x > y, x * 4, y * 0.5)` with `requires_grad`
on both inputs and `backward(z)`: for all `(x, y)`, if `x > y` then
`gradient(x) = 4` and `gradient(y) = 0`, else `gradient(x) = 0` and
`gradient(y) = 1/2` — exactly, with zero tolerance. -/
theorem select_branch_masking (x y : ℚ) :
    (y < x →
      gradientOf [0, 1] (backwardFrom (selectTrace x y) 7) 0 = some (V.num 4) ∧
      gradientOf [0, 1] (backwardFrom (selectTrace x y) 7) 1 = some (V.num 0)) ∧
    (¬ y < x →
      gradientOf [0, 1] (backwardFrom (selectTrace x y) 7) 0 = some (V.num 0) ∧
      gradientOf [0, 1] (backwardFrom (selectTrace x y) 7) 1 = some (V.num (1 / 2))) := by
  constructor
  · intro h
    norm_num [gradientOf, backwardFrom, selectTrace, forwardF, forwardAux, evalOp,
      enumFrom, backList, stepBack, addAt, routeMul_num, routeMul_zero, vadd_num,
      V.cmpgtV, h]
  · intro h
    norm_num [gradientOf, backwardFrom, selectTrace, forwardF, forwardAux, evalOp,
      enumFrom, backList, stepBack, addAt, routeMul_num, routeMul_zero, vadd_num,
      V.cmpgtV, h]

/-- Witness for `select_branch_masking`: both branches exercised, at the
lanes `(x, y) = (3, 1)` and `(x, y) = (1, 3)`. -/
theorem select_branch_masking_witness :
    (gradientOf [0, 1] (backwardFrom (selectTrace 3 1) 7) 0 = some (V.num 4) ∧
      gradientOf [0, 1] (backwardFrom (selectTrace 3 1) 7) 1 = some (V.num 0)) ∧
    (gradientOf [0, 1] (backwardFrom (selectTrace 1 3) 7) 0 = some (V.num 0) ∧
      gradientOf [0, 1] (backwardFrom (selectTrace 1 3) 7) 1 = some (V.num (1 / 2))) :=
  ⟨(select_branch_masking 3 1).1 (by norm_num),
   (select_branch_masking 1 3).2 (by norm_num)⟩

/-- Claim C6: `detach` forwards the primal value unchanged and blocks all
backward adjoint flow: for `k = detach(x * y)` and `z = (x + y) * k`, after
`backward(z)` both `gradient(x)` and `gradient(y)` equal exactly `x * y`
(adjoint reaches the inputs only through the non-detached `x + y` factor),
and `k`'s forward value is exactly `x * y`. -/
theorem detach_isolation (x y : ℚ) :
    gradientOf [0, 1] (backwardFrom (detachTrace x y) 5) 0 = some (V.num (x * y)) ∧
    gradientOf [0, 1] (backwardFrom (detachTrace x y) 5) 1 = some (V.num (x * y)) ∧
    forwardF (detachTrace x y) 3 = V.num (x * y) := by
  norm_num [gradientOf, backwardFrom, detachTrace, forwardF, forwardAux, evalOp,
    enumFrom, backList, stepBack, addAt, routeMul_num, routeMul_zero, vadd_num,
    V.mul, V.add]

/-- Claim C7: for the 3-way switch keyed by `t ∈ {0, 1, 2}`, each lane's
gradients after `backward` equal exactly the derivative of the selected case
and exactly zero for the inputs used only by the other cases — and the
kernel that obtains the same gradients through a called subroutine writing
them into its mutable parameters produces identical values. -/
theorem switch_exclusivity (x y : ℚ) (t : ℤ) :
    (t = 0 → switchGrads x y t = (some (V.num 4), some (V.num 0)) ∧
      kernelViaCallable x y t = (V.num 4, V.num 0)) ∧
    (t = 1 → switchGrads x y t = (some (V.num 2), some (V.num 0)) ∧
      kernelViaCallable x y t = (V.num 2, V.num 0)) ∧
    (t = 2 → switchGrads x y t = (some (V.num 0), some (V.num (1 / 2))) ∧
      kernelViaCallable x y t = (V.num 0, V.num (1 / 2))) := by
  refine ⟨fun ht => ?_, fun ht => ?_, fun ht => ?_⟩ <;>
    subst ht <;>
    norm_num [switchGrads, kernelViaCallable, switchCallable, gradientOf,
      backwardFrom, switchTrace, forwardF, forwardAux, evalOp, enumFrom, backList,
      stepBack, addAt, routeMul_num, routeMul_zero, vadd_num, List.find?]

/-- Witness for `switch_exclusivity`: all three keys at the lane
`(x, y) = (2, 3)`. -/
theorem switch_exclusivity_witness :
    (switchGrads 2 3 0 = (some (V.num 4), some (V.num 0)) ∧
      kernelViaCallable 2 3 0 = (V.num 4, V.num 0)) ∧
    (switchGrads 2 3 1 = (some (V.num 2), some (V.num 0)) ∧
      kernelViaCallable 2 3 1 = (V.num 2, V.num 0)) ∧
    (switchGrads 2 3 2 = (some (V.num 0), some (V.num (1 / 2))) ∧
      kernelViaCallable 2 3 2 = (V.num 0, V.num (1 / 2))) :=
  ⟨(switch_exclusivity 2 3 0).1 rfl,
   (switch_exclusivity 2 3 1).2.1 rfl,
   (switch_exclusivity 2 3 2).2.2 rfl⟩

end LuisaAD
